import Mathlib

/-!
Shallow embedding of the gpt-gateway service (src/main.go and the auth
variant src/unnamed/part_000). Both variants share the same core logic:
a `/generate` handler (memoization coordinator), a `/code` handler
(fetch passthrough) and a `callOpenAI` generation adapter. The sqlite
table `entries` with PRIMARY KEY `device_name` is modelled as a partial
map from device names to entries; the effectful steps of the handlers
(row scan, upstream call, upsert) are modelled by oracle parameters
carrying the result each Go call would produce, so that the handler
control flow can be embedded exactly as written.
-/

namespace GptGateway

/-- The inbound JSON request of the `/generate` endpoint
(`GenerateRequest` in main.go). -/
structure GenerateRequest where
  device_name : String
  keyword : String
  language : String
  prompt : String
  refresh : Bool
deriving DecidableEq

/-- The outbound JSON response shape shared by both endpoints
(`CodeResponse` in main.go). -/
structure CodeResponse where
  device_name : String
  keyword : String
  language : String
  prompt : String
  output : String
deriving DecidableEq

/-- One row of the sqlite `entries` table: the Entry of the data model. -/
structure Entry where
  device_name : String
  keyword : String
  language : String
  prompt : String
  output : String
deriving DecidableEq

/-- One content block of the provider response
(the inner anonymous struct of `OpenAIResponse` in main.go). -/
structure ContentBlock where
  text : String
deriving DecidableEq

/-- One output item of the provider response
(the outer anonymous struct element of `OpenAIResponse.Output`). -/
structure OutputItem where
  content : List ContentBlock
deriving DecidableEq

/-- The structured provider response shape (`OpenAIResponse` in main.go). -/
structure OpenAIResponse where
  output : List OutputItem
deriving DecidableEq

/-- Result of a database call in the Go source: `sql.ErrNoRows` or any
other storage error (I/O failure and the like), carried with a message. -/
inductive DBError where
  | noRows
  | failure (msg : String)
deriving DecidableEq

/-- Go's `strings.TrimSpace`: the input with all leading and trailing
whitespace characters removed, modelled over the character list. -/
def trimSpace (s : String) : String :=
  ⟨((s.data.dropWhile Char.isWhitespace).reverse.dropWhile Char.isWhitespace).reverse⟩

/-- Body-processing tail of `callOpenAI` (main.go lines 170-180), after
`io.ReadAll` produced the body `b`. The `parsed` oracle is the result of
`json.Unmarshal(b, &oaResp)`: `none` when unmarshalling fails, otherwise
the decoded structure. The Go code evaluates
`len(oaResp.Output) > 0 && len(oaResp.Output[1].Content) > 0` and on
success returns `strings.TrimSpace(oaResp.Output[1].Content[0].Text)`;
indexing `Output[1]` with only one output item is a Go runtime panic
(index out of range), modelled here as `none`. All other paths fall
through to the raw body. -/
def callOpenAIBody (b : String) (parsed : Option OpenAIResponse) : Option String :=
  match parsed with
  | none => some b
  | some oaResp =>
    if oaResp.output.length > 0 then
      match oaResp.output[1]? with
      | none => none
      | some item =>
        match item.content with
        | [] => some b
        | c :: _ => some (trimSpace c.text)
    else
      some b

/-- The outcome of the transport step of `callOpenAI`: either
`client.Do` fails, or a response arrives carrying a status code, the
body read by `io.ReadAll`, and the `json.Unmarshal` result for that
body. -/
inductive TransportResult where
  | transportError (msg : String)
  | response (status : Nat) (body : String) (parsed : Option OpenAIResponse)
deriving DecidableEq

/-- `callOpenAI` (main.go lines 149-181): on a transport failure the
error is returned verbatim; on any received response the body is
processed by `callOpenAIBody`. The Go source never reads
`resp.StatusCode`, so the `status` field is ignored here exactly as
there. `none` models a runtime panic during body processing. -/
def callOpenAI (t : TransportResult) : Option (Except String String) :=
  match t with
  | .transportError msg => some (.error msg)
  | .response _ body parsed => (callOpenAIBody body parsed).map Except.ok

instance {ε α : Type} [DecidableEq ε] [DecidableEq α] : DecidableEq (Except ε α) :=
  fun a b =>
    match a, b with
    | .ok x, .ok y => if h : x = y then .isTrue (by rw [h]) else .isFalse (by simp [h])
    | .error x, .error y => if h : x = y then .isTrue (by rw [h]) else .isFalse (by simp [h])
    | .ok _, .error _ => .isFalse (by simp)
    | .error _, .ok _ => .isFalse (by simp)

/-- Results of the three effectful steps the `/generate` handler can
perform, in source order: the `SELECT output ... Scan(&output)` row
read, the `callOpenAI` call, and the `INSERT ... ON CONFLICT DO UPDATE`
write (`none` meaning the write succeeded). Each oracle is consulted
only if the handler reaches the corresponding call. -/
structure HandlerEffects where
  getResult : Except DBError String
  genResult : Except String String
  putResult : Option DBError
deriving DecidableEq

/-- The observable outcome of the `/generate` handler: the three
`http.Error` exits past JSON decoding, or the encoded `CodeResponse`. -/
inductive HandlerResult where
  | badRequest (msg : String)
  | openAIError (msg : String)
  | dbSaveError
  | ok (resp : CodeResponse)
deriving DecidableEq

/-- Which effects the handler actually performed: whether the row read
was issued, whether `callOpenAI` was invoked, and the Entry written by
the upsert (`none` when no write was applied; a failed `db.Exec` applies
nothing). -/
structure Trace where
  readStore : Bool
  genCalled : Bool
  written : Option Entry
deriving DecidableEq

/-- The `/generate` handler core (main.go lines 81-119, identically
part_000 lines 113-149), starting after JSON decoding. Mirrors the Go
control flow: validate the four fields; scan the stored output into the
Go variable `output` (which keeps its zero value `""` when the scan
errs); if the scan error is `sql.ErrNoRows` or `req.Refresh` is set,
call the adapter and on success upsert the Entry assembled from the
request fields and the fresh output; finally encode a `CodeResponse`
built from the request fields and the `output` variable (the fresh
output on the generation path, otherwise the scanned value, inlined
here in each branch). -/
def generateHandler (req : GenerateRequest) (eff : HandlerEffects) :
    HandlerResult × Trace :=
  if req.device_name = "" ∨ req.keyword = "" ∨ req.language = "" ∨ req.prompt = "" then
    (.badRequest "device_name, keyword, language e prompt sao obrigatorios",
     ⟨false, false, none⟩)
  else
    if eff.getResult = .error .noRows ∨ req.refresh then
      match eff.genResult with
      | .error e => (.openAIError e, ⟨true, true, none⟩)
      | .ok out =>
        match eff.putResult with
        | some _ => (.dbSaveError, ⟨true, true, none⟩)
        | none =>
          (.ok ⟨req.device_name, req.keyword, req.language, req.prompt, out⟩,
           ⟨true, true, some ⟨req.device_name, req.keyword, req.language, req.prompt, out⟩⟩)
    else
      (.ok ⟨req.device_name, req.keyword, req.language, req.prompt,
            match eff.getResult with
            | .ok s => s
            | .error _ => ""⟩,
       ⟨true, false, none⟩)

/-- The sqlite `entries` table as a partial map: PRIMARY KEY
`device_name` guarantees at most one row per key. -/
def StoreState : Type := String → Option Entry

/-- The `INSERT ... ON CONFLICT(device_name) DO UPDATE` upsert: the row
for `e.device_name` is fully replaced (all four non-key columns set from
the excluded row), every other key untouched. -/
def StoreState.put (db : StoreState) (e : Entry) : StoreState :=
  fun n => if n = e.device_name then some e else db n

/-- The effects a fault-free sqlite store produces for one `/generate`
request: the row scan yields the stored output or `sql.ErrNoRows`, the
adapter result is `gen`, and the upsert succeeds. -/
def effectsOf (db : StoreState) (name : String) (gen : Except String String) :
    HandlerEffects :=
  { getResult :=
      match db name with
      | some e => .ok e.output
      | none => .error .noRows
    genResult := gen
    putResult := none }

/-- One `/generate` request against a fault-free store: runs the handler
and applies the traced write to the table. -/
def resolve (db : StoreState) (req : GenerateRequest) (gen : Except String String) :
    HandlerResult × Trace × StoreState :=
  let r := generateHandler req (effectsOf db req.device_name gen)
  (r.1, r.2,
    match r.2.written with
    | some e => db.put e
    | none => db)

/-- One `/generate` request where the adapter outcome comes from the
transport layer: `none` when body processing panicked. -/
def resolveWithTransport (db : StoreState) (req : GenerateRequest)
    (t : TransportResult) : Option (HandlerResult × Trace × StoreState) :=
  match callOpenAI t with
  | none => none
  | some gen => some (resolve db req gen)

/-- The observable outcome of the `/code` handler. -/
inductive CodeResult where
  | badRequest
  | notFound
  | ok (resp : CodeResponse)
deriving DecidableEq

/-- The `/code` handler core (main.go lines 123-144, identically
part_000 lines 154-174): reject an empty `device` parameter; scan the
full row; on ANY scan error — `sql.ErrNoRows` or a genuine storage
failure alike — answer 404 "device nao encontrado"; otherwise encode
the row. -/
def codeHandler (device : String) (getResult : Except DBError Entry) : CodeResult :=
  if device = "" then .badRequest
  else
    match getResult with
    | .error _ => .notFound
    | .ok e => .ok ⟨e.device_name, e.keyword, e.language, e.prompt, e.output⟩

/-- The row scan of the `/code` handler against a fault-free store. -/
def fetchEffect (db : StoreState) (device : String) : Except DBError Entry :=
  match db device with
  | some e => .ok e
  | none => .error .noRows

/-- One `/code` request against a fault-free store. -/
def fetch (db : StoreState) (device : String) : CodeResult :=
  codeHandler device (fetchEffect db device)

/-- Validation predicate of the `/generate` handler: all four string
fields non-empty. -/
def GenerateRequest.valid (req : GenerateRequest) : Prop :=
  req.device_name ≠ "" ∧ req.keyword ≠ "" ∧ req.language ≠ "" ∧ req.prompt ≠ ""

instance (req : GenerateRequest) : Decidable req.valid := by
  unfold GenerateRequest.valid
  infer_instance

/-! ## Helper lemmas -/

/-- The handler result of `resolve` is the handler result on the
effects the fault-free store produces. -/
theorem resolve_fst (db : StoreState) (req : GenerateRequest)
    (gen : Except String String) :
    (resolve db req gen).1 =
      (generateHandler req (effectsOf db req.device_name gen)).1 := rfl

/-- The trace of `resolve` is the handler trace on the effects the
fault-free store produces. -/
theorem resolve_trace (db : StoreState) (req : GenerateRequest)
    (gen : Except String String) :
    (resolve db req gen).2.1 =
      (generateHandler req (effectsOf db req.device_name gen)).2 := rfl

/-- When the trace records a write, the store after `resolve` is the
upsert of the written Entry. -/
theorem resolve_store_of_written (db : StoreState) (req : GenerateRequest)
    (gen : Except String String) (e : Entry)
    (h : (resolve db req gen).2.1.written = some e) :
    (resolve db req gen).2.2 = db.put e := by
  simp only [resolve] at h ⊢
  rw [h]

/-- When the trace records no write, the store after `resolve` is
unchanged. -/
theorem resolve_store_of_none (db : StoreState) (req : GenerateRequest)
    (gen : Except String String)
    (h : (resolve db req gen).2.1.written = none) :
    (resolve db req gen).2.2 = db := by
  simp only [resolve] at h ⊢
  rw [h]

/-- A fault-free store with no row for `name` yields `sql.ErrNoRows`. -/
theorem effectsOf_miss (db : StoreState) (name : String)
    (gen : Except String String) (h : db name = none) :
    (effectsOf db name gen).getResult = .error .noRows := by
  simp [effectsOf, h]

/-- A fault-free store with a row for `name` yields its output. -/
theorem effectsOf_hit (db : StoreState) (name : String)
    (gen : Except String String) (e : Entry) (h : db name = some e) :
    (effectsOf db name gen).getResult = .ok e.output := by
  simp [effectsOf, h]

/-- With valid fields, a `sql.ErrNoRows` scan or the refresh flag, and
a failing generation call, the handler exits through the OpenAI error
branch with nothing written. -/
theorem generateHandler_gen_error (req : GenerateRequest) (eff : HandlerEffects)
    (msg : String) (hv : req.valid)
    (hc : eff.getResult = .error .noRows ∨ req.refresh = true)
    (hg : eff.genResult = .error msg) :
    generateHandler req eff = (.openAIError msg, ⟨true, true, none⟩) := by
  obtain ⟨h1, h2, h3, h4⟩ := hv
  rcases hc with hc | hc <;>
    simp [generateHandler, h1, h2, h3, h4, hc, hg]

/-- With valid fields, a `sql.ErrNoRows` scan or the refresh flag, a
successful generation call and a successful upsert, the handler writes
and returns the Entry assembled from the request and the fresh
output. -/
theorem generateHandler_gen_ok (req : GenerateRequest) (eff : HandlerEffects)
    (out : String) (hv : req.valid)
    (hc : eff.getResult = .error .noRows ∨ req.refresh = true)
    (hg : eff.genResult = .ok out) (hp : eff.putResult = none) :
    generateHandler req eff =
      (.ok ⟨req.device_name, req.keyword, req.language, req.prompt, out⟩,
       ⟨true, true, some ⟨req.device_name, req.keyword, req.language, req.prompt, out⟩⟩) := by
  obtain ⟨h1, h2, h3, h4⟩ := hv
  rcases hc with hc | hc <;>
    simp [generateHandler, h1, h2, h3, h4, hc, hg, hp]

/-- With valid fields, a successful scan and no refresh flag, the
handler serves the scanned output with no generation call and no
write. -/
theorem generateHandler_cache_hit (req : GenerateRequest) (eff : HandlerEffects)
    (s : String) (hv : req.valid) (hs : eff.getResult = .ok s)
    (hr : req.refresh = false) :
    generateHandler req eff =
      (.ok ⟨req.device_name, req.keyword, req.language, req.prompt, s⟩,
       ⟨true, false, none⟩) := by
  obtain ⟨h1, h2, h3, h4⟩ := hv
  simp [generateHandler, h1, h2, h3, h4, hs, hr]

/-- Whenever the handler records a write, the written Entry is keyed by
the request's device name and that name is non-empty. -/
theorem generateHandler_written (req : GenerateRequest) (eff : HandlerEffects)
    (e : Entry) (h : (generateHandler req eff).2.written = some e) :
    e.device_name = req.device_name ∧ req.device_name ≠ "" := by
  unfold generateHandler at h
  split at h
  · simp at h
  · rename_i hne
    split at h
    · split at h
      · simp at h
      · split at h
        · simp at h
        · simp only [Option.some.injEq] at h
          subst h
          exact ⟨rfl, fun hdn => hne (Or.inl hdn)⟩
    · simp at h

/-! ## Claim theorems -/

/-- Claim C8: for every resolve request in which device_name, keyword,
language, or prompt is empty, the handler returns the client-input
error and performs no store access and no generation call. -/
theorem c8_empty_field_rejected (req : GenerateRequest) (eff : HandlerEffects)
    (h : req.device_name = "" ∨ req.keyword = "" ∨ req.language = "" ∨ req.prompt = "") :
    generateHandler req eff =
      (.badRequest "device_name, keyword, language e prompt sao obrigatorios",
       ⟨false, false, none⟩) := by
  unfold generateHandler
  rw [if_pos h]

/-- Witness for C8: the request of concrete scenario C with an empty
keyword is rejected with no store read, no generation call and no
write, even though the store read and generation oracles would have
succeeded. -/
theorem c8_witness :
    (GenerateRequest.mk "dev1" "" "python" "blink an LED" false).keyword = "" ∧
    generateHandler ⟨"dev1", "", "python", "blink an LED", false⟩
        ⟨.ok "stored", .ok "fresh", none⟩ =
      (.badRequest "device_name, keyword, language e prompt sao obrigatorios",
       ⟨false, false, none⟩) :=
  ⟨rfl, c8_empty_field_rejected _ _ (Or.inr (Or.inl rfl))⟩

/-- Claim C10: every success response of the `/generate` handler — cache
hit or freshly generated — carries device_name, keyword, language and
prompt copied verbatim from the inbound request; only output can come
from the store. -/
theorem c10_response_echoes_request (req : GenerateRequest) (eff : HandlerEffects)
    (resp : CodeResponse) (tr : Trace)
    (h : generateHandler req eff = (.ok resp, tr)) :
    resp.device_name = req.device_name ∧ resp.keyword = req.keyword ∧
    resp.language = req.language ∧ resp.prompt = req.prompt := by
  unfold generateHandler at h
  split at h
  · simp_all
  · split at h
    · split at h
      · simp_all
      · split at h
        · simp_all
        · obtain ⟨h1, -⟩ := Prod.mk.injEq .. ▸ h
          cases h1
          exact ⟨rfl, rfl, rfl, rfl⟩
    · obtain ⟨h1, -⟩ := Prod.mk.injEq .. ▸ h
      cases h1
      exact ⟨rfl, rfl, rfl, rfl⟩

/-- Witness for C10: a cache-hit response echoes the request fields of
a concrete request. -/
theorem c10_witness :
    generateHandler ⟨"dev1", "led", "python", "blink an LED", false⟩
        ⟨.ok "stored output", .ok "fresh", none⟩ =
      (.ok ⟨"dev1", "led", "python", "blink an LED", "stored output"⟩,
       ⟨true, false, none⟩) ∧
    ("dev1" : String) = "dev1" ∧ ("led" : String) = "led" ∧
    ("python" : String) = "python" ∧ ("blink an LED" : String) = "blink an LED" :=
  ⟨rfl, c10_response_echoes_request ⟨"dev1", "led", "python", "blink an LED", false⟩
    ⟨.ok "stored output", .ok "fresh", none⟩
    ⟨"dev1", "led", "python", "blink an LED", "stored output"⟩
    ⟨true, false, none⟩ rfl⟩

/-- Counterexample to claim C1 as stated: the store holds
⟨dev1, kw_old, go, p_old, out_old⟩ and the request carries different
keyword, language and prompt with refresh=false; the cache hit is
served (the generation oracle is an error and the result is still ok),
but the response carries the request's keyword — not the stored
Entry's keyword as the claim demands. -/
theorem c1_counterexample :
    (resolve
        (fun n => if n = "dev1" then some ⟨"dev1", "kw_old", "go", "p_old", "out_old"⟩
                  else none)
        ⟨"dev1", "kw_new", "py", "p_new", false⟩ (.error "never invoked")).1 =
      .ok ⟨"dev1", "kw_new", "py", "p_new", "out_old"⟩ ∧
    ("kw_new" : String) ≠ "kw_old" := by
  exact ⟨by decide, by decide⟩

/-- Claim C1 (amended): for every valid resolve request whose
device_name has an Entry in the store and whose refresh flag is false,
no generation call is performed and the stored output is returned, but
the returned device_name, keyword, language and prompt are the
request's values; the store is unchanged. -/
theorem c1_cache_hit_no_generation (db : StoreState) (req : GenerateRequest)
    (e : Entry) (gen : Except String String) (hv : req.valid)
    (he : db req.device_name = some e) (hr : req.refresh = false) :
    (resolve db req gen).1 =
      .ok ⟨req.device_name, req.keyword, req.language, req.prompt, e.output⟩ ∧
    (resolve db req gen).2.1 = ⟨true, false, none⟩ ∧
    (resolve db req gen).2.2 = db := by
  have hgen := generateHandler_cache_hit req (effectsOf db req.device_name gen)
    e.output hv (effectsOf_hit db req.device_name gen e he) hr
  refine ⟨?_, ?_, ?_⟩
  · rw [resolve_fst, hgen]
  · rw [resolve_trace, hgen]
  · exact resolve_store_of_none db req gen (by rw [resolve_trace, hgen])

/-- Witness for C1: concrete cache hit with stored output out_old and a
request carrying fresh metadata; the response is the request's fields
plus the stored output, nothing is generated, the store is unchanged. -/
theorem c1_witness :
    (GenerateRequest.mk "devA" "kwB" "pyB" "pB" false).valid ∧
    (fun n => if n = "devA" then some (Entry.mk "devA" "kwA" "goA" "pA" "outA")
              else none : StoreState) "devA" = some ⟨"devA", "kwA", "goA", "pA", "outA"⟩ ∧
    (resolve
        (fun n => if n = "devA" then some ⟨"devA", "kwA", "goA", "pA", "outA"⟩ else none)
        ⟨"devA", "kwB", "pyB", "pB", false⟩ (.error "never invoked")).1 =
      .ok ⟨"devA", "kwB", "pyB", "pB", "outA"⟩ :=
  ⟨by decide, by decide,
    (c1_cache_hit_no_generation
      (fun n => if n = "devA" then some ⟨"devA", "kwA", "goA", "pA", "outA"⟩ else none)
      ⟨"devA", "kwB", "pyB", "pB", false⟩ ⟨"devA", "kwA", "goA", "pA", "outA"⟩
      (.error "never invoked") (by decide) (by decide) rfl).1⟩

/-- Claim C6: for every valid request with refresh=true, generation is
invoked regardless of the prior store contents, and afterwards the
store maps the device name to the Entry assembled entirely from the
request's values and the fresh output, every other key untouched. -/
theorem c6_refresh_regenerates_and_replaces (db : StoreState)
    (req : GenerateRequest) (out : String) (hv : req.valid)
    (hr : req.refresh = true) :
    (resolve db req (.ok out)).2.1.genCalled = true ∧
    (resolve db req (.ok out)).2.2 req.device_name =
      some ⟨req.device_name, req.keyword, req.language, req.prompt, out⟩ ∧
    ∀ n, n ≠ req.device_name → (resolve db req (.ok out)).2.2 n = db n := by
  have hgen := generateHandler_gen_ok req (effectsOf db req.device_name (.ok out))
    out hv (Or.inr hr) rfl rfl
  have hw : (resolve db req (.ok out)).2.1.written =
      some ⟨req.device_name, req.keyword, req.language, req.prompt, out⟩ := by
    rw [resolve_trace, hgen]
  have hdb := resolve_store_of_written db req (.ok out) _ hw
  refine ⟨by rw [resolve_trace, hgen], ?_, ?_⟩
  · rw [hdb]
    simp [StoreState.put]
  · intro n hn
    rw [hdb]
    simp [StoreState.put, hn]

/-- Witness for C6: refresh of a previously stored, fully different
Entry; the store afterwards holds exactly the request's fields with the
fresh output at devA and still the old Entry at devB. -/
theorem c6_witness :
    (GenerateRequest.mk "devA" "kwN" "pyN" "pN" true).valid ∧
    (GenerateRequest.mk "devA" "kwN" "pyN" "pN" true).refresh = true ∧
    (resolve
        (fun n => if n = "devA" then some ⟨"devA", "kwO", "goO", "pO", "outO"⟩ else none)
        ⟨"devA", "kwN", "pyN", "pN", true⟩ (.ok "outN")).2.1.genCalled = true ∧
    (resolve
        (fun n => if n = "devA" then some ⟨"devA", "kwO", "goO", "pO", "outO"⟩ else none)
        ⟨"devA", "kwN", "pyN", "pN", true⟩ (.ok "outN")).2.2 "devA" =
      some ⟨"devA", "kwN", "pyN", "pN", "outN"⟩ := by
  refine ⟨by decide, rfl, ?_, ?_⟩
  · exact (c6_refresh_regenerates_and_replaces
      (fun n => if n = "devA" then some ⟨"devA", "kwO", "goO", "pO", "outO"⟩ else none)
      ⟨"devA", "kwN", "pyN", "pN", true⟩ "outN" (by decide) rfl).1
  · exact (c6_refresh_regenerates_and_replaces
      (fun n => if n = "devA" then some ⟨"devA", "kwO", "goO", "pO", "outO"⟩ else none)
      ⟨"devA", "kwN", "pyN", "pN", true⟩ "outN" (by decide) rfl).2.1

/-- Claim C7: whenever the resolve path invokes the generation adapter
(store miss or refresh) and the adapter fails, the failure is returned
to the caller and the store is left exactly as it was: no write at
all. -/
theorem c7_gen_failure_leaves_store (db : StoreState) (req : GenerateRequest)
    (msg : String) (hv : req.valid)
    (ht : db req.device_name = none ∨ req.refresh = true) :
    (resolve db req (.error msg)).1 = .openAIError msg ∧
    (resolve db req (.error msg)).2.1.written = none ∧
    (resolve db req (.error msg)).2.2 = db := by
  have hc : (effectsOf db req.device_name (.error msg)).getResult =
      .error .noRows ∨ req.refresh = true := by
    rcases ht with h | h
    · exact Or.inl (effectsOf_miss db req.device_name (.error msg) h)
    · exact Or.inr h
  have hgen := generateHandler_gen_error req
    (effectsOf db req.device_name (.error msg)) msg hv hc rfl
  refine ⟨by rw [resolve_fst, hgen], by rw [resolve_trace, hgen], ?_⟩
  exact resolve_store_of_none db req (.error msg) (by rw [resolve_trace, hgen])

/-- Witness for C7: a failing generation on an empty store returns the
OpenAI error and the store still has no row for the device. -/
theorem c7_witness :
    (GenerateRequest.mk "devA" "kw" "py" "p" false).valid ∧
    ((fun _ => none : StoreState) "devA" = none ∨
      (GenerateRequest.mk "devA" "kw" "py" "p" false).refresh = true) ∧
    (resolve (fun _ => none) ⟨"devA", "kw", "py", "p", false⟩
        (.error "upstream down")).1 = .openAIError "upstream down" ∧
    (resolve (fun _ => none) ⟨"devA", "kw", "py", "p", false⟩
        (.error "upstream down")).2.2 = (fun _ => none : StoreState) := by
  refine ⟨by decide, Or.inl rfl, ?_, ?_⟩
  · exact (c7_gen_failure_leaves_store (fun _ => none)
      ⟨"devA", "kw", "py", "p", false⟩ "upstream down" (by decide) (Or.inl rfl)).1
  · exact (c7_gen_failure_leaves_store (fun _ => none)
      ⟨"devA", "kw", "py", "p", false⟩ "upstream down" (by decide) (Or.inl rfl)).2.2

/-- Claim C2 (code bug): a provider response whose body parses to
exactly one output item passes the len(Output) greater-than-zero guard
and then indexes Output[1] — a Go index-out-of-range panic, modelled as
none: the adapter crashes instead of degrading to the raw body as the
spec promises. A concrete such body is
a JSON object whose output array holds one item with one content
block. -/
theorem c2_panic_on_single_output_item :
    callOpenAI (.response 200 "single item body" (some ⟨[⟨[⟨"hi"⟩]⟩]⟩)) = none ∧
    callOpenAIBody "single item body" (some ⟨[⟨[⟨"hi"⟩]⟩]⟩) ≠
      some "single item body" := by
  exact ⟨by decide, by decide⟩

/-- Counterexample to claim C3 as stated: a well-formed response with
two output items, each with a non-empty content sequence; the adapter
returns the text of the SECOND item's first content block, not the
first item's text as the claim demands. -/
theorem c3_counterexample :
    callOpenAIBody "raw body"
        (some ⟨[⟨[⟨"first text"⟩]⟩, ⟨[⟨"second text"⟩]⟩]⟩) =
      some "second text" ∧
    ("second text" : String) ≠ "first text" := by
  exact ⟨by decide, by decide⟩

/-- Claim C3 (amended): for every response whose parsed output
sequence has at least two items and whose second item has a non-empty
content sequence, the adapter returns the text of the second output
item's first content block with surrounding whitespace trimmed. -/
theorem c3_second_item_first_block (b : String) (i0 : OutputItem)
    (c : ContentBlock) (cs : List ContentBlock) (rest : List OutputItem) :
    callOpenAIBody b (some ⟨i0 :: ⟨c :: cs⟩ :: rest⟩) = some (trimSpace c.text) := by
  simp [callOpenAIBody]

/-- Counterexample to claim C4 as stated: the provider answers with
status 500 and a body that parses to zero output items; the call is
treated as a success whose output is the raw body, and the Entry is
written to the store — the non-2xx failure is neither surfaced as an
error nor does it prevent the write. -/
theorem c4_counterexample :
    (resolveWithTransport (fun _ => none)
        ⟨"dev1", "led", "python", "blink an LED", false⟩
        (.response 500 "upstream error body" (some ⟨[]⟩))).map
        (fun r => (r.1, r.2.1)) =
      some (.ok ⟨"dev1", "led", "python", "blink an LED", "upstream error body"⟩,
            ⟨true, true,
             some ⟨"dev1", "led", "python", "blink an LED", "upstream error body"⟩⟩) := by
  decide

/-- Claim C4 (amended): only a transport failure of the generation
call is surfaced: it is returned as the upstream error and no store
write occurs; the provider status code is never inspected, so a
non-2xx response is processed exactly like a 200 response with the
same body. -/
theorem c4_transport_failure_only (db : StoreState) (req : GenerateRequest)
    (msg body : String) (status : Nat) (parsed : Option OpenAIResponse)
    (hv : req.valid) (ht : db req.device_name = none ∨ req.refresh = true) :
    (resolveWithTransport db req (.transportError msg)).map (fun r => r.1) =
      some (.openAIError msg) ∧
    (resolveWithTransport db req (.transportError msg)).map
        (fun r => r.2.1.written) = some none ∧
    resolveWithTransport db req (.response status body parsed) =
      resolveWithTransport db req (.response 200 body parsed) := by
  have hc : (effectsOf db req.device_name (.error msg)).getResult =
      .error .noRows ∨ req.refresh = true := by
    rcases ht with h | h
    · exact Or.inl (effectsOf_miss db req.device_name (.error msg) h)
    · exact Or.inr h
  have hgen := generateHandler_gen_error req
    (effectsOf db req.device_name (.error msg)) msg hv hc rfl
  refine ⟨?_, ?_, rfl⟩
  · simp [resolveWithTransport, callOpenAI, resolve_fst, hgen]
  · simp [resolveWithTransport, callOpenAI, resolve_trace, hgen]

/-- Witness for C4: on an empty store, a transport failure is surfaced
as the upstream error with nothing written, and a concrete 500
response is handled exactly as the same response with status 200. -/
theorem c4_witness :
    (GenerateRequest.mk "devA" "kw" "py" "p" false).valid ∧
    ((fun _ => none : StoreState) "devA" = none ∨
      (GenerateRequest.mk "devA" "kw" "py" "p" false).refresh = true) ∧
    (resolveWithTransport (fun _ => none) ⟨"devA", "kw", "py", "p", false⟩
        (.transportError "connection refused")).map (fun r => r.1) =
      some (.openAIError "connection refused") ∧
    resolveWithTransport (fun _ => none) ⟨"devA", "kw", "py", "p", false⟩
        (.response 500 "some body" none) =
      resolveWithTransport (fun _ => none) ⟨"devA", "kw", "py", "p", false⟩
        (.response 200 "some body" none) := by
  refine ⟨by decide, Or.inl rfl, ?_, ?_⟩
  · exact (c4_transport_failure_only (fun _ => none)
      ⟨"devA", "kw", "py", "p", false⟩ "connection refused" "some body" 500 none
      (by decide) (Or.inl rfl)).1
  · exact (c4_transport_failure_only (fun _ => none)
      ⟨"devA", "kw", "py", "p", false⟩ "connection refused" "some body" 500 none
      (by decide) (Or.inl rfl)).2.2

/-- Counterexample to claim C5 as stated: a backing-store failure that
is not no-such-key is reported by the `/code` passthrough as the
not-found outcome, and the `/generate` lookup with refresh=false
silently serves a success with empty output instead of surfacing the
storage error. -/
theorem c5_counterexample :
    codeHandler "dev1" (.error (.failure "disk io failure")) = .notFound ∧
    (generateHandler ⟨"dev1", "led", "python", "blink an LED", false⟩
        ⟨.error (.failure "disk io failure"), .ok "unused", none⟩).1 =
      .ok ⟨"dev1", "led", "python", "blink an LED", ""⟩ := by
  exact ⟨by decide, by decide⟩

/-- Claim C5 (amended): a store read failure other than no-such-key is
never surfaced distinctly: the fetch passthrough maps every read
failure to the not-found outcome, and the resolve lookup with
refresh=false swallows the failure, serving a success response whose
output is the empty string. -/
theorem c5_storage_error_conflated (device msg : String) (req : GenerateRequest)
    (gen : Except String String) (put : Option DBError)
    (hd : device ≠ "") (hv : req.valid) (hr : req.refresh = false) :
    codeHandler device (.error (.failure msg)) = .notFound ∧
    (generateHandler req ⟨.error (.failure msg), gen, put⟩).1 =
      .ok ⟨req.device_name, req.keyword, req.language, req.prompt, ""⟩ := by
  obtain ⟨h1, h2, h3, h4⟩ := hv
  exact ⟨by simp [codeHandler, hd], by simp [generateHandler, h1, h2, h3, h4, hr]⟩

/-- Witness for C5: a concrete I/O failure is answered as not-found by
the `/code` handler and as an ok response with empty output by the
`/generate` handler. -/
theorem c5_witness :
    ("devX" : String) ≠ "" ∧
    (GenerateRequest.mk "devY" "kw" "py" "p" false).valid ∧
    (GenerateRequest.mk "devY" "kw" "py" "p" false).refresh = false ∧
    codeHandler "devX" (.error (.failure "io fail")) = .notFound ∧
    (generateHandler ⟨"devY", "kw", "py", "p", false⟩
        ⟨.error (.failure "io fail"), .ok "g", none⟩).1 =
      .ok ⟨"devY", "kw", "py", "p", ""⟩ := by
  refine ⟨by decide, by decide, rfl, ?_, ?_⟩
  · exact (c5_storage_error_conflated "devX" "io fail"
      ⟨"devY", "kw", "py", "p", false⟩ (.ok "g") none
      (by decide) (by decide) rfl).1
  · exact (c5_storage_error_conflated "devX" "io fail"
      ⟨"devY", "kw", "py", "p", false⟩ (.ok "g") none
      (by decide) (by decide) rfl).2

/-- Claim C9: every Entry the resolve path writes is retrievable by a
subsequent fetch on its device name against the resulting store, with
all five fields equal to the written Entry's fields. -/
theorem c9_round_trip (db : StoreState) (req : GenerateRequest)
    (gen : Except String String) (e : Entry)
    (hw : (resolve db req gen).2.1.written = some e) :
    fetch (resolve db req gen).2.2 e.device_name =
      .ok ⟨e.device_name, e.keyword, e.language, e.prompt, e.output⟩ := by
  have hw' : (generateHandler req (effectsOf db req.device_name gen)).2.written =
      some e := by rw [← resolve_trace]; exact hw
  obtain ⟨hdn, hne⟩ := generateHandler_written req _ e hw'
  rw [resolve_store_of_written db req gen e hw]
  have hne' : e.device_name ≠ "" := by rw [hdn]; exact hne
  simp [fetch, codeHandler, fetchEffect, StoreState.put, hne']

/-- Witness for C9: scenario A — a first generation for dev1 writes the
Entry and fetching dev1 from the resulting store returns exactly that
Entry. -/
theorem c9_witness :
    (resolve (fun _ => none) ⟨"dev1", "led", "python", "blink an LED", false⟩
        (.ok "import machine")).2.1.written =
      some ⟨"dev1", "led", "python", "blink an LED", "import machine"⟩ ∧
    fetch (resolve (fun _ => none) ⟨"dev1", "led", "python", "blink an LED", false⟩
        (.ok "import machine")).2.2 "dev1" =
      .ok ⟨"dev1", "led", "python", "blink an LED", "import machine"⟩ :=
  ⟨by decide,
    c9_round_trip (fun _ => none) ⟨"dev1", "led", "python", "blink an LED", false⟩
      (.ok "import machine")
      ⟨"dev1", "led", "python", "blink an LED", "import machine"⟩ (by decide)⟩

end GptGateway
